import Mathlib

/-!
Verification model of the dwolla-go client library (customer module and facade).
Go functions are embedded as pure Lean functions: the HTTP transport outcome and
the JSON decode outcome are explicit inputs, Go `(T, error)` results become
`Except String T`, Go maps become association lists with zero-value defaults.
-/

set_option linter.unusedVariables false

deriving instance DecidableEq for Except

namespace DwollaGo

/-- Modelled from the spec: the `client.Link` hypermedia link type of the
`client` package, which is not among the sources; the spec data model gives it
a single `href` attribute, and `customer.go` reads `.Href` from it. -/
structure Link where
  href : String
deriving DecidableEq

/-- Modelled from the spec: the `client.DwollaClient` interface of the `client`
package, which is not among the sources. Per spec section 4.1 it exposes
`AuthToken()` returning a bearer token or an error, and `RootURL()` returning
the fixed base URL; both are modelled as fields. -/
structure DwollaClient where
  rootURL : String
  authToken : Except String String
deriving DecidableEq

/-- Go map lookup `m[k]`: the mapped value when the key is present, the given
zero value otherwise. -/
def mapGet (m : List (String × α)) (k : String) (d : α) : α :=
  match m.find? (fun p => p.1 == k) with
  | some p => p.2
  | none => d

/-- Go `strings.TrimPrefix(s, p)`: drops `p` from the front of `s` when `s`
begins with `p`, otherwise returns `s` unchanged. -/
def trimPrefix (s p : String) : String :=
  if p.data.isPrefixOf s.data then String.mk (s.data.drop p.data.length) else s

/-- The vendor media type attached as Accept and Content-Type on requests. -/
def halMediaType : String := "application/vnd.dwolla.v1.hal+json"

/-- An HTTP request as the customer module builds it: method, URL and the
headers added with `req.Header.Add` in source order. -/
structure HttpRequest where
  method : String
  url : String
  headers : List (String × String)
deriving DecidableEq

/-- The part of an HTTP response the customer module consumes: the status
code, the status text `res.Status`, and the value of the Location header
(`res.Header.Get` yields the empty string when the header is absent). -/
structure HttpResponse where
  statusCode : Nat
  status : String
  location : String
deriving DecidableEq

/-- Outcome of `json.NewDecoder(res.Body).Decode(target)`: `value` is what the
target holds after the call returns (the full decoded body on success, the
zero or partially filled value on failure) and `error` is the error the
decoder returned, `none` on success. -/
structure DecodeOutcome (α : Type) where
  value : α
  error : Option String
deriving DecidableEq

/-- The `Customer` struct of `customer.go`. The Go `Client` interface field is
modelled as a plain `DwollaClient`; `nilClient` below stands for its zero
value. The `Links` map is an association list. -/
structure Customer where
  client : DwollaClient
  id : String
  firstName : String
  lastName : String
  email : String
  type : String
  status : String
  businessName : String
  ipAddress : String
  createdAt : String
  dateOfBirth : String
  ssn : String
  state : String
  postalCode : String
  city : String
  address : String
  passport : String
  links : List (String × Link)
deriving DecidableEq

/-- The `Document` struct of `customer.go`. -/
structure Document where
  client : DwollaClient
  links : List (String × Link)
  id : String
  status : String
  type : String
  createdAt : String
deriving DecidableEq

/-- The `listCustomersResponse` envelope of `customer.go`: links plus an
`_embedded` map from collection name to customers. -/
structure listCustomersResponse where
  links : List (String × Link)
  embedded : List (String × List Customer)
deriving DecidableEq

/-- The `listDocumentsResponse` envelope of `customer.go`. -/
structure listDocumentsResponse where
  links : List (String × Link)
  embedded : List (String × List Document)
deriving DecidableEq

/-- The `createFudingSourceToken` response body of `customer.go` (the name
keeps the spelling of the source): a token plus a links map. -/
structure createFudingSourceToken where
  token : String
  links : List (String × List (String × String))
deriving DecidableEq

/-- Modelled from the spec: the `funding.Resource` entity. The `funding`
package version imported by the customer module is not among the sources;
the fields are those the spec lists for a Funding Resource and that
`customer.go` copies inside `ListFundingSources`. -/
structure Resource where
  client : DwollaClient
  id : String
  status : String
  accountNumber : String
  routingNumber : String
  bankAccountType : String
  name : String
  bankName : String
  type : String
  createdAt : String
  removed : Bool
  plaidToken : String
  channels : List String
  links : List (String × Link)
deriving DecidableEq

/-- Modelled from the spec: the `funding.ListResourcesResponse` envelope of
the imported `funding` package, a hypermedia envelope mapping the collection
name to a sequence of resources, read as `body.Embedded` in `customer.go`. -/
structure ListResourcesResponse where
  links : List (String × Link)
  embedded : List (String × List Resource)
deriving DecidableEq

/-- Modelled from the spec: the `transfer.Transfer` entity of the `transfer`
package, which is not among the sources; the spec data model gives it an id,
a status, an amount and source and destination links. -/
structure Transfer where
  id : String
  status : String
  amount : String
  sourceLink : Link
  destinationLink : Link
deriving DecidableEq

/-- Modelled from the spec: the `transfer.ListTransferResponse` envelope of
the `transfer` package, read as `body.Embedded` in `customer.go`. -/
structure ListTransferResponse where
  links : List (String × Link)
  embedded : List (String × List Transfer)
deriving DecidableEq

/-- The zero value of the Go `client.Client` interface field, used for entities
built by JSON decoding (the decoder never fills the interface field). -/
def nilClient : DwollaClient :=
  { rootURL := "", authToken := .error "nil client interface" }

/-- The `Create` function of `customer.go`. `transport` is the outcome of
`hc.Do(req)`; `json.Marshal` of a customer cannot fail and is not modelled.
On 201 the customer ID is the Location header with the collection prefix
trimmed; 403, 400 and 404 map to fixed errors; anything else passes the raw
status text through. Error wrapping follows `errors.Wrap` (message, colon,
cause). -/
def create (c : DwollaClient) (cu : Customer)
    (transport : Except String HttpResponse) : Except String String :=
  match c.authToken with
  | .error e => .error ("failed to get auth token: " ++ e)
  | .ok _tok =>
    match transport with
    | .error e => .error ("failed to make request to dwolla api: " ++ e)
    | .ok res =>
      if res.statusCode = 201 then
        .ok (trimPrefix res.location (c.rootURL ++ "/customers/"))
      else if res.statusCode = 403 then
        .error "not authorized to create customers"
      else if res.statusCode = 400 then
        .error "duplicate customer or validation error"
      else if res.statusCode = 404 then
        .error "account not found"
      else
        .error res.status

/-- The `List` function of `customer.go`. On 200 the decode error is assigned
to `err` but never checked, and the for-range loop assigns `Client` to a copy
of each element, leaving the slice itself untouched, so the result is exactly
the decoded `Embedded` entry for the key string customers. -/
def listCustomers (c : DwollaClient) (transport : Except String HttpResponse)
    (dec : DecodeOutcome listCustomersResponse) : Except String (List Customer) :=
  match c.authToken with
  | .error e => .error ("failed to get auth token: " ++ e)
  | .ok _tok =>
    match transport with
    | .error e => .error ("failed to make request to dwolla api: " ++ e)
    | .ok res =>
      if res.statusCode = 200 then
        .ok (mapGet dec.value.embedded "customers" [])
      else if res.statusCode = 403 then
        .error "not authorized to list customers"
      else if res.statusCode = 404 then
        .error "account not found"
      else
        .error res.status

/-- The `GetCustomer` function of `customer.go`. This is the one decoding
operation that checks the decode error; on success the decoded customer gets
its `Client` field set to the calling client. -/
def getCustomer (c : DwollaClient) (customerID : String)
    (transport : Except String HttpResponse)
    (dec : DecodeOutcome Customer) : Except String Customer :=
  match c.authToken with
  | .error e => .error ("failed to get auth token: " ++ e)
  | .ok _tok =>
    match transport with
    | .error e => .error ("failed to make request to dwolla api: " ++ e)
    | .ok res =>
      if res.statusCode = 200 then
        match dec.error with
        | some e => .error ("error parsing JSON response: " ++ e)
        | none => .ok { dec.value with client := c }
      else if res.statusCode = 403 then
        .error "not authorized to retrieve the customer"
      else if res.statusCode = 404 then
        .error "account not found"
      else
        .error res.status

/-- The `Update` method of `customer.go`: POST of the marshalled customer,
200 means success with no payload. -/
def update (cu : Customer) (transport : Except String HttpResponse) :
    Except String Unit :=
  match cu.client.authToken with
  | .error e => .error ("failed to get auth token: " ++ e)
  | .ok _tok =>
    match transport with
    | .error e => .error ("failed to make request to dwolla api: " ++ e)
    | .ok res =>
      if res.statusCode = 200 then
        .ok ()
      else if res.statusCode = 403 then
        .error "not authorized to update the customer"
      else if res.statusCode = 404 then
        .error "account not found"
      else
        .error res.status

/-- The `AddDocument` method of `customer.go`. `uploadErr` is the first error
of the multipart steps (`CreateFormFile`, `io.Copy`, `WriteField`), all three
wrapped with the same message. On a response, only the status code is
consulted: 201 is success, the body is never read. The misspelt message of
the 403 branch is kept as in the source. -/
def addDocument (cu : Customer) (uploadErr : Option String)
    (transport : Except String HttpResponse) : Except String Unit :=
  match cu.client.authToken with
  | .error e => .error ("failed to get auth token: " ++ e)
  | .ok _tok =>
    match uploadErr with
    | some e => .error ("error uploading file: " ++ e)
    | none =>
      match transport with
      | .error e => .error ("failed to make request to dwolla api: " ++ e)
      | .ok res =>
        if res.statusCode = 201 then
          .ok ()
        else if res.statusCode = 403 then
          .error "not authorized to uplaod document to customer"
        else if res.statusCode = 404 then
          .error "account not found"
        else
          .error res.status

/-- The `ListDocuments` method of `customer.go`. On 200 the decode error is
assigned but never checked; the decoded documents are returned as-is, their
`Client` field untouched. -/
def listDocuments (cu : Customer) (transport : Except String HttpResponse)
    (dec : DecodeOutcome listDocumentsResponse) : Except String (List Document) :=
  match cu.client.authToken with
  | .error e => .error ("failed to get auth token: " ++ e)
  | .ok _tok =>
    match transport with
    | .error e => .error ("failed to make request to dwolla api: " ++ e)
    | .ok res =>
      if res.statusCode = 200 then
        .ok (mapGet dec.value.embedded "documents" [])
      else if res.statusCode = 403 then
        .error "not authorized to list customers"
      else if res.statusCode = 404 then
        .error "account not found"
      else
        .error res.status

/-- The `GetDocument` function of `customer.go`. On 200 the decode error is
assigned but never checked and the decoded document is returned as-is. -/
def getDocument (c : DwollaClient) (docuemntID : String)
    (transport : Except String HttpResponse)
    (dec : DecodeOutcome Document) : Except String Document :=
  match c.authToken with
  | .error e => .error ("failed to get auth token: " ++ e)
  | .ok _tok =>
    match transport with
    | .error e => .error ("failed to make request to dwolla api: " ++ e)
    | .ok res =>
      if res.statusCode = 200 then
        .ok dec.value
      else if res.statusCode = 403 then
        .error "not authorized to retrieve the customer"
      else if res.statusCode = 404 then
        .error "account not found"
      else
        .error res.status

/-- The `CreateFundingSource` method of `customer.go`. Its switch handles
201, 403 and 400 only; 404 falls into the default branch that passes the raw
status text through. -/
def createFundingSource (cu : Customer) (f : Resource)
    (transport : Except String HttpResponse) : Except String Unit :=
  match cu.client.authToken with
  | .error e => .error ("failed to get auth token: " ++ e)
  | .ok _tok =>
    match transport with
    | .error e => .error ("failed to make request to dwolla api: " ++ e)
    | .ok res =>
      if res.statusCode = 201 then
        .ok ()
      else if res.statusCode = 403 then
        .error "not authorized to create funding source"
      else if res.statusCode = 400 then
        .error "duplicate funding source or validation error. Authorization already associated to a funding source"
      else
        .error res.status

/-- The `CreateFundingSourceToken` method of `customer.go`. Its switch handles
200 and 404 only; 400 and 403 fall into the default branch. On 200 the decode
error is assigned but never checked and the decoded token is returned. -/
def createFundingSourceToken (cu : Customer)
    (transport : Except String HttpResponse)
    (dec : DecodeOutcome createFudingSourceToken) : Except String String :=
  match cu.client.authToken with
  | .error e => .error ("failed to get auth token: " ++ e)
  | .ok _tok =>
    match transport with
    | .error e => .error ("failed to make request to dwolla api: " ++ e)
    | .ok res =>
      if res.statusCode = 200 then
        .ok dec.value.token
      else if res.statusCode = 404 then
        .error "customer not found"
      else
        .error res.status

/-- The `CreateIAVFundingSourceToken` method of `customer.go`; same dispatch
shape as `createFundingSourceToken`. -/
def createIAVFundingSourceToken (cu : Customer)
    (transport : Except String HttpResponse)
    (dec : DecodeOutcome createFudingSourceToken) : Except String String :=
  match cu.client.authToken with
  | .error e => .error ("failed to get auth token: " ++ e)
  | .ok _tok =>
    match transport with
    | .error e => .error ("failed to make request to dwolla api: " ++ e)
    | .ok res =>
      if res.statusCode = 200 then
        .ok dec.value.token
      else if res.statusCode = 404 then
        .error "customer not found"
      else
        .error res.status

/-- The `ListFundingSources` method of `customer.go`. On 200 the decode error
is assigned but never checked; each decoded resource is copied field by field
into a fresh resource whose `Client` is the customer client, in slice order. -/
def listFundingSources (cu : Customer) (transport : Except String HttpResponse)
    (dec : DecodeOutcome ListResourcesResponse) : Except String (List Resource) :=
  match cu.client.authToken with
  | .error e => .error ("failed to get auth token: " ++ e)
  | .ok _tok =>
    match transport with
    | .error e => .error ("failed to make request to dwolla api: " ++ e)
    | .ok res =>
      if res.statusCode = 200 then
        .ok ((mapGet dec.value.embedded "funding-sources" []).map (fun s =>
          { client := cu.client
            id := s.id
            status := s.status
            accountNumber := s.accountNumber
            routingNumber := s.routingNumber
            bankAccountType := s.bankAccountType
            name := s.name
            bankName := s.bankName
            type := s.type
            createdAt := s.createdAt
            removed := s.removed
            plaidToken := s.plaidToken
            channels := s.channels
            links := s.links }))
      else if res.statusCode = 403 then
        .error "not authorized to list funding sources"
      else if res.statusCode = 404 then
        .error "customer not found"
      else
        .error res.status

/-- The `ListTransfers` method of `customer.go`. On 200 the decode error is
assigned but never checked; the decoded transfers are returned as-is. -/
def listTransfers (cu : Customer) (transport : Except String HttpResponse)
    (dec : DecodeOutcome ListTransferResponse) : Except String (List Transfer) :=
  match cu.client.authToken with
  | .error e => .error ("failed to get auth token: " ++ e)
  | .ok _tok =>
    match transport with
    | .error e => .error ("failed to make request to dwolla api: " ++ e)
    | .ok res =>
      if res.statusCode = 200 then
        .ok (mapGet dec.value.embedded "transfers" [])
      else if res.statusCode = 403 then
        .error "not authorized to list transfers"
      else if res.statusCode = 404 then
        .error "customer not found"
      else
        .error res.status

/-! Request construction. Each builder records the method, the URL string the
source concatenates, and the headers in the order of the `req.Header.Add`
calls, for a given bearer token. -/

/-- Request built by `Create`. -/
def createRequest (c : DwollaClient) (token : String) : HttpRequest :=
  { method := "POST"
    url := c.rootURL ++ "/customers"
    headers := [("Authorization", "Bearer " ++ token), ("Accept", halMediaType),
      ("Content-Type", halMediaType)] }

/-- Request built by `List`. -/
def listCustomersRequest (c : DwollaClient) (token : String) : HttpRequest :=
  { method := "GET"
    url := c.rootURL ++ "/customers"
    headers := [("Authorization", "Bearer " ++ token), ("Accept", halMediaType)] }

/-- Request built by `GetCustomer`. -/
def getCustomerRequest (c : DwollaClient) (customerID : String) (token : String) :
    HttpRequest :=
  { method := "GET"
    url := c.rootURL ++ "/customers/" ++ customerID
    headers := [("Authorization", "Bearer " ++ token), ("Accept", halMediaType)] }

/-- Request built by `Update`. -/
def updateRequest (cu : Customer) (token : String) : HttpRequest :=
  { method := "POST"
    url := cu.client.rootURL ++ "/customers/" ++ cu.id
    headers := [("Authorization", "Bearer " ++ token), ("Accept", halMediaType),
      ("Content-Type", halMediaType)] }

/-- Request built by `AddDocument`. The URL keeps the literal of the source,
whose path segment is the string /customers/+ with a plus sign; the content
type is the multipart form type with a fixed boundary, plus a Cache-Control
header. -/
def addDocumentRequest (cu : Customer) (token : String) : HttpRequest :=
  { method := "POST"
    url := cu.client.rootURL ++ "/customers/+" ++ cu.id ++ "/documents"
    headers := [("Authorization", "Bearer " ++ token), ("Accept", halMediaType),
      ("Content-Type", "multipart/form-data; boundary=----WebKitFormBoundary7MA4YWxkTrZu0gW"),
      ("Cache-Control", "no-cache")] }

/-- Request built by `ListDocuments`. -/
def listDocumentsRequest (cu : Customer) (token : String) : HttpRequest :=
  { method := "GET"
    url := cu.client.rootURL ++ "/customers/" ++ cu.id ++ "/documents"
    headers := [("Authorization", "Bearer " ++ token), ("Accept", halMediaType)] }

/-- Request built by `GetDocument`. -/
def getDocumentRequest (c : DwollaClient) (docuemntID : String) (token : String) :
    HttpRequest :=
  { method := "GET"
    url := c.rootURL ++ "/documents/" ++ docuemntID
    headers := [("Authorization", "Bearer " ++ token), ("Accept", halMediaType)] }

/-- Request built by `CreateFundingSource`. -/
def createFundingSourceRequest (cu : Customer) (token : String) : HttpRequest :=
  { method := "POST"
    url := cu.client.rootURL ++ "/customers/" ++ cu.id ++ "/funding-sources"
    headers := [("Authorization", "Bearer " ++ token), ("Accept", halMediaType),
      ("Content-Type", halMediaType)] }

/-- Request built by `CreateFundingSourceToken`. -/
def createFundingSourceTokenRequest (cu : Customer) (token : String) : HttpRequest :=
  { method := "POST"
    url := cu.client.rootURL ++ "/customers/" ++ cu.id ++ "/funding-sources-token"
    headers := [("Authorization", "Bearer " ++ token), ("Accept", halMediaType),
      ("Content-Type", halMediaType)] }

/-- Request built by `CreateIAVFundingSourceToken`. The third header keeps
the spelling of the source, the string Conetent-Type. -/
def createIAVFundingSourceTokenRequest (cu : Customer) (token : String) :
    HttpRequest :=
  { method := "POST"
    url := cu.client.rootURL ++ "/customers/" ++ cu.id ++ "/iav-token"
    headers := [("Authorization", "Bearer " ++ token), ("Accept", halMediaType),
      ("Conetent-Type", halMediaType)] }

/-- Request built by `ListFundingSources`. The third header keeps the
spelling of the source, the string Conetent-Type. -/
def listFundingSourcesRequest (cu : Customer) (token : String) : HttpRequest :=
  { method := "GET"
    url := cu.client.rootURL ++ "/customers/" ++ cu.id ++ "/funding-sources"
    headers := [("Authorization", "Bearer " ++ token), ("Accept", halMediaType),
      ("Conetent-Type", halMediaType)] }

/-- Request built by `ListTransfers`: the URL is the href of the customer
self link (the zero-value link when the key is absent, as for a Go map)
concatenated with /transfers, not a path under the client root URL. -/
def listTransfersRequest (cu : Customer) (token : String) : HttpRequest :=
  { method := "GET"
    url := (mapGet cu.links "self" (Link.mk "")).href ++ "/transfers"
    headers := [("Authorization", "Bearer " ++ token), ("Accept", halMediaType)] }

/-- The facade `Client` of `dwolla.go`, wrapping the authenticating client. -/
structure FacadeClient where
  client : DwollaClient
deriving DecidableEq

/-- The facade `Client.CreateCustomer` of `dwolla.go`. Its declared result is
a bare error while `customer.Create` now returns an ID and an error, so only
the error component can cross the facade boundary; the success value is
discarded. -/
def FacadeClient.createCustomer (fc : FacadeClient) (cu : Customer)
    (transport : Except String HttpResponse) : Except String Unit :=
  match create fc.client cu transport with
  | .ok _ => .ok ()
  | .error e => .error e

/-- The facade `Client.ListCustomers` of `dwolla.go`: pure delegation. -/
def FacadeClient.listCustomers (fc : FacadeClient)
    (transport : Except String HttpResponse)
    (dec : DecodeOutcome listCustomersResponse) : Except String (List Customer) :=
  DwollaGo.listCustomers fc.client transport dec

/-- The facade `Client.GetCustomer` of `dwolla.go`: pure delegation. -/
def FacadeClient.getCustomer (fc : FacadeClient) (customerID : String)
    (transport : Except String HttpResponse)
    (dec : DecodeOutcome Customer) : Except String Customer :=
  DwollaGo.getCustomer fc.client customerID transport dec

/-- The facade `Client.GetDocument` of `dwolla.go`: pure delegation. -/
def FacadeClient.getDocument (fc : FacadeClient) (documentID : String)
    (transport : Except String HttpResponse)
    (dec : DecodeOutcome Document) : Except String Document :=
  DwollaGo.getDocument fc.client documentID transport dec

/-! Success test and the error taxonomy of spec section 7, as predicates on
the message strings the module produces. -/

/-- True exactly on a success result. -/
def isOk {α : Type} : Except String α → Bool
  | .ok _ => true
  | .error _ => false

/-- Spec section 7: an authorization error reads not authorized to do the
operation, so its message starts with the words not authorized. -/
def isAuthorizationError (msg : String) : Bool :=
  "not authorized".data.isPrefixOf msg.data

/-- Spec section 7: a not-found error reads resource not found, so its
message ends with the words not found. -/
def isNotFoundError (msg : String) : Bool :=
  "not found".data.isSuffixOf msg.data

/-- Whether `pat` occurs as a contiguous run inside `l`. -/
def hasInfix (pat : List Char) : List Char → Bool
  | [] => pat.isPrefixOf []
  | c :: rest => pat.isPrefixOf (c :: rest) || hasInfix pat rest

/-- Spec section 7: a validation error mentions a duplicate resource or
validation failure; every such message in the module contains the words
validation error. -/
def isValidationError (msg : String) : Bool :=
  hasInfix "validation error".data msg.data

/-! Concrete values used to instantiate the theorems. -/

/-- The sandbox client of the spec scenarios, with a valid token. -/
def sandboxClient : DwollaClient :=
  { rootURL := "https://api-sandbox.example.com", authToken := .ok "tok" }

/-- The zero value of the `Customer` struct. -/
def zeroCustomer : Customer :=
  { client := nilClient, id := "", firstName := "", lastName := "", email := ""
    type := "", status := "", businessName := "", ipAddress := "", createdAt := ""
    dateOfBirth := "", ssn := "", state := "", postalCode := "", city := ""
    address := "", passport := "", links := [] }

/-- A customer obtained through the sandbox client, with ID abc. -/
def sampleCustomer : Customer :=
  { zeroCustomer with client := sandboxClient, id := "abc" }

/-- The zero value of the `Document` struct. -/
def zeroDocument : Document :=
  { client := nilClient, links := [], id := "", status := "", type := ""
    createdAt := "" }

/-- The zero value of the `funding.Resource` struct. -/
def zeroResource : Resource :=
  { client := nilClient, id := "", status := "", accountNumber := ""
    routingNumber := "", bankAccountType := "", name := "", bankName := ""
    type := "", createdAt := "", removed := false, plaidToken := ""
    channels := [], links := [] }

/-! Claim theorems. -/

/-- C1: for every 201 response to customer creation, `create` returns the
customer ID obtained by stripping the prefix rootURL then /customers/ from
the Location header of the response. -/
theorem create_201_extracts_id_from_location (c : DwollaClient) (cu : Customer)
    (tok : String) (res : HttpResponse)
    (htok : c.authToken = .ok tok) (hs : res.statusCode = 201) :
    create c cu (.ok res)
      = .ok (trimPrefix res.location (c.rootURL ++ "/customers/")) := by
  simp [create, htok, hs]

/-- C1 witness: in the sandbox scenario of the spec, the extracted customer
ID is abc-123. -/
theorem create_201_extracts_id_from_location_witness :
    create sandboxClient sampleCustomer
      (.ok { statusCode := 201, status := "201 Created",
             location := "https://api-sandbox.example.com/customers/abc-123" })
      = .ok "abc-123" := by
  have h := create_201_extracts_id_from_location sandboxClient sampleCustomer
    "tok"
    { statusCode := 201, status := "201 Created",
      location := "https://api-sandbox.example.com/customers/abc-123" }
    rfl rfl
  rw [h]
  decide

/-- C7: document upload returns success exactly when the response status is
201; the response body is never consulted, and every other status yields an
error, never a partial success. -/
theorem addDocument_ok_iff_status_201 (cu : Customer) (tok : String)
    (res : HttpResponse) (htok : cu.client.authToken = .ok tok) :
    addDocument cu none (.ok res) = .ok () ↔ res.statusCode = 201 := by
  constructor
  · intro hok
    by_contra hne
    simp only [addDocument, htok, if_neg hne] at hok
    split_ifs at hok
  · intro h
    simp [addDocument, htok, h]

/-- C7 witness: a 201 response with arbitrary status text is a success. -/
theorem addDocument_ok_iff_status_201_witness :
    addDocument sampleCustomer none
      (.ok { statusCode := 201, status := "201 Created", location := "" })
      = .ok () :=
  (addDocument_ok_iff_status_201 sampleCustomer "tok"
    { statusCode := 201, status := "201 Created", location := "" } rfl).mpr rfl

/-- C10: ListTransfers builds its URL from the href of the self hypermedia
link; when the customer links hold no self entry the zero-value link is used,
so the URL is exactly the string /transfers, not a path under the client root
URL. -/
theorem listTransfers_missing_self_link_url (cu : Customer) (token : String)
    (h : cu.links.find? (fun p => p.1 == "self") = none) :
    (listTransfersRequest cu token).url = "/transfers" := by
  simp [listTransfersRequest, mapGet, h]

/-- C10 witness: a customer with an empty links map sends ListTransfers to
the bare URL /transfers. -/
theorem listTransfers_missing_self_link_url_witness :
    (listTransfersRequest sampleCustomer "tok").url = "/transfers" :=
  listTransfers_missing_self_link_url sampleCustomer "tok" rfl

/-- C4: for every list operation, a 200 response whose envelope holds zero
entries under the expected collection key yields the empty list and no
error, not a failure. -/
theorem empty_envelope_yields_empty_list (cu : Customer) (tok : String)
    (res : HttpResponse)
    (d1 : DecodeOutcome listCustomersResponse)
    (d2 : DecodeOutcome listDocumentsResponse)
    (d3 : DecodeOutcome ListResourcesResponse)
    (d4 : DecodeOutcome ListTransferResponse)
    (htok : cu.client.authToken = .ok tok) (hs : res.statusCode = 200)
    (h1 : mapGet d1.value.embedded "customers" [] = [])
    (h2 : mapGet d2.value.embedded "documents" [] = [])
    (h3 : mapGet d3.value.embedded "funding-sources" [] = [])
    (h4 : mapGet d4.value.embedded "transfers" [] = []) :
    listCustomers cu.client (.ok res) d1 = .ok []
      ∧ listDocuments cu (.ok res) d2 = .ok []
      ∧ listFundingSources cu (.ok res) d3 = .ok []
      ∧ listTransfers cu (.ok res) d4 = .ok [] := by
  refine ⟨?_, ?_, ?_, ?_⟩ <;>
    simp [listCustomers, listDocuments, listFundingSources, listTransfers,
      htok, hs, h1, h2, h3, h4]

/-- C4 witness: the spec scenario, a 200 body whose embedded map carries the
expected key with zero entries, for all four list operations. -/
theorem empty_envelope_yields_empty_list_witness :
    listCustomers sandboxClient
        (.ok { statusCode := 200, status := "200 OK", location := "" })
        { value := { links := [], embedded := [("customers", [])] }, error := none }
      = .ok []
    ∧ listDocuments sampleCustomer
        (.ok { statusCode := 200, status := "200 OK", location := "" })
        { value := { links := [], embedded := [("documents", [])] }, error := none }
      = .ok []
    ∧ listFundingSources sampleCustomer
        (.ok { statusCode := 200, status := "200 OK", location := "" })
        { value := { links := [], embedded := [("funding-sources", [])] }, error := none }
      = .ok []
    ∧ listTransfers sampleCustomer
        (.ok { statusCode := 200, status := "200 OK", location := "" })
        { value := { links := [], embedded := [("transfers", [])] }, error := none }
      = .ok [] :=
  empty_envelope_yields_empty_list sampleCustomer "tok"
    { statusCode := 200, status := "200 OK", location := "" }
    { value := { links := [], embedded := [("customers", [])] }, error := none }
    { value := { links := [], embedded := [("documents", [])] }, error := none }
    { value := { links := [], embedded := [("funding-sources", [])] }, error := none }
    { value := { links := [], embedded := [("transfers", [])] }, error := none }
    rfl rfl rfl rfl rfl rfl

/-- C2 counterexample: CreateFundingSourceToken at a 403 response returns the
raw status text 403 Forbidden, which is not the documented not-authorized
category, refuting the claim as stated. -/
theorem fundingSourceToken_403_passthrough_cex :
    createFundingSourceToken sampleCustomer
      (.ok { statusCode := 403, status := "403 Forbidden", location := "" })
      { value := { token := "", links := [] }, error := none }
      = .error "403 Forbidden"
    ∧ isAuthorizationError "403 Forbidden" = false :=
  ⟨rfl, rfl⟩

/-- C2 amended: for every customer-module operation and every status in 400,
403, 404 the result is an error and never a success value; the documented
category is produced only by the codes each switch names, while
CreateFundingSourceToken and CreateIAVFundingSourceToken pass 400 and 403
through as raw status text and CreateFundingSource passes 404 through as raw
status text. -/
theorem error_dispatch_400_403_404
    (cu : Customer) (tok : String) (res : HttpResponse) (f : Resource)
    (uploadErr : Option String)
    (d1 : DecodeOutcome listCustomersResponse) (d2 : DecodeOutcome Customer)
    (d3 : DecodeOutcome listDocumentsResponse) (d4 : DecodeOutcome Document)
    (d5 : DecodeOutcome createFudingSourceToken)
    (d6 : DecodeOutcome ListResourcesResponse)
    (d7 : DecodeOutcome ListTransferResponse)
    (htok : cu.client.authToken = .ok tok)
    (hs : res.statusCode = 400 ∨ res.statusCode = 403 ∨ res.statusCode = 404) :
    (isOk (create cu.client cu (.ok res)) = false
      ∧ isOk (listCustomers cu.client (.ok res) d1) = false
      ∧ isOk (getCustomer cu.client cu.id (.ok res) d2) = false
      ∧ isOk (update cu (.ok res)) = false
      ∧ isOk (addDocument cu uploadErr (.ok res)) = false
      ∧ isOk (listDocuments cu (.ok res) d3) = false
      ∧ isOk (getDocument cu.client cu.id (.ok res) d4) = false
      ∧ isOk (createFundingSource cu f (.ok res)) = false
      ∧ isOk (createFundingSourceToken cu (.ok res) d5) = false
      ∧ isOk (createIAVFundingSourceToken cu (.ok res) d5) = false
      ∧ isOk (listFundingSources cu (.ok res) d6) = false
      ∧ isOk (listTransfers cu (.ok res) d7) = false)
    ∧ (res.statusCode = 404 →
        createFundingSourceToken cu (.ok res) d5 = .error "customer not found"
          ∧ createIAVFundingSourceToken cu (.ok res) d5 = .error "customer not found"
          ∧ createFundingSource cu f (.ok res) = .error res.status)
    ∧ ((res.statusCode = 400 ∨ res.statusCode = 403) →
        createFundingSourceToken cu (.ok res) d5 = .error res.status
          ∧ createIAVFundingSourceToken cu (.ok res) d5 = .error res.status)
    ∧ (res.statusCode = 400 →
        createFundingSource cu f (.ok res)
          = .error "duplicate funding source or validation error. Authorization already associated to a funding source")
    ∧ (res.statusCode = 403 →
        createFundingSource cu f (.ok res)
          = .error "not authorized to create funding source") := by
  obtain h | h | h := hs <;> cases uploadErr <;>
    simp [create, listCustomers, getCustomer, update, addDocument,
      listDocuments, getDocument, createFundingSource,
      createFundingSourceToken, createIAVFundingSourceToken,
      listFundingSources, listTransfers, isOk, htok, h]

/-- C2 amended witness: the 403 passthrough of CreateFundingSourceToken at a
concrete response. -/
theorem error_dispatch_400_403_404_witness :
    createFundingSourceToken sampleCustomer
      (.ok { statusCode := 403, status := "403 Forbidden", location := "" })
      { value := { token := "tkn", links := [] }, error := none }
      = .error "403 Forbidden" := by
  have h := error_dispatch_400_403_404 sampleCustomer "tok"
    { statusCode := 403, status := "403 Forbidden", location := "" }
    zeroResource none
    { value := { links := [], embedded := [] }, error := none }
    { value := zeroCustomer, error := none }
    { value := { links := [], embedded := [] }, error := none }
    { value := zeroDocument, error := none }
    { value := { token := "tkn", links := [] }, error := none }
    { value := { links := [], embedded := [] }, error := none }
    { value := { links := [], embedded := [] }, error := none }
    rfl (Or.inr (Or.inl rfl))
  exact (h.2.2.1 (Or.inr rfl)).1

/-- C3: at a 200 response whose body fails to decode (decoder error, target
left at its zero value), every decoding operation of the claim still returns
a success value built from the undecoded zero body, with no error; the
assigned decode error is never checked. -/
theorem decode_failures_ignored_eval :
    listCustomers sandboxClient
        (.ok { statusCode := 200, status := "200 OK", location := "" })
        { value := { links := [], embedded := [] }, error := some "unexpected EOF" }
      = .ok []
    ∧ listDocuments sampleCustomer
        (.ok { statusCode := 200, status := "200 OK", location := "" })
        { value := { links := [], embedded := [] }, error := some "unexpected EOF" }
      = .ok []
    ∧ getDocument sandboxClient "doc-1"
        (.ok { statusCode := 200, status := "200 OK", location := "" })
        { value := zeroDocument, error := some "unexpected EOF" }
      = .ok zeroDocument
    ∧ createFundingSourceToken sampleCustomer
        (.ok { statusCode := 200, status := "200 OK", location := "" })
        { value := { token := "", links := [] }, error := some "unexpected EOF" }
      = .ok ""
    ∧ createIAVFundingSourceToken sampleCustomer
        (.ok { statusCode := 200, status := "200 OK", location := "" })
        { value := { token := "", links := [] }, error := some "unexpected EOF" }
      = .ok ""
    ∧ listFundingSources sampleCustomer
        (.ok { statusCode := 200, status := "200 OK", location := "" })
        { value := { links := [], embedded := [] }, error := some "unexpected EOF" }
      = .ok []
    ∧ listTransfers sampleCustomer
        (.ok { statusCode := 200, status := "200 OK", location := "" })
        { value := { links := [], embedded := [] }, error := some "unexpected EOF" }
      = .ok [] :=
  ⟨rfl, rfl, rfl, rfl, rfl, rfl, rfl⟩

/-- C5: the List operation returns the decoded customers untouched, because
the for-range loop assigns the client to a per-iteration copy; the returned
customer still carries the zero-value client, not the client the call was
made with. -/
theorem list_leaves_client_unset_eval :
    listCustomers sandboxClient
        (.ok { statusCode := 200, status := "200 OK", location := "" })
        { value := { links := []
                     embedded := [("customers",
                       [{ zeroCustomer with id := "abc-123" }])] }
          error := none }
      = .ok [{ zeroCustomer with id := "abc-123" }]
    ∧ ({ zeroCustomer with id := "abc-123" } : Customer).client ≠ sandboxClient := by
  refine ⟨rfl, ?_⟩
  decide

/-- C6: the AddDocument request URL contains the literal path segment
/customers/+ of the source, so for customer ID abc it is not the documented
/customers/abc/documents path. -/
theorem addDocument_url_plus_typo_eval :
    (addDocumentRequest sampleCustomer "tok").url
      = "https://api-sandbox.example.com/customers/+abc/documents"
    ∧ (addDocumentRequest sampleCustomer "tok").url
      ≠ "https://api-sandbox.example.com/customers/abc/documents" := by
  refine ⟨rfl, ?_⟩
  decide

/-- C8: the facade CreateCustomer is declared to return only an error, so the
customer ID that customer.Create extracts cannot cross the facade: two calls
whose Create results carry different IDs produce the same facade result. -/
theorem facade_createCustomer_discards_id_eval :
    create sandboxClient sampleCustomer
        (.ok { statusCode := 201, status := "201 Created",
               location := "https://api-sandbox.example.com/customers/abc-123" })
      = .ok "abc-123"
    ∧ create sandboxClient sampleCustomer
        (.ok { statusCode := 201, status := "201 Created",
               location := "https://api-sandbox.example.com/customers/xyz-789" })
      = .ok "xyz-789"
    ∧ FacadeClient.createCustomer { client := sandboxClient } sampleCustomer
        (.ok { statusCode := 201, status := "201 Created",
               location := "https://api-sandbox.example.com/customers/abc-123" })
      = FacadeClient.createCustomer { client := sandboxClient } sampleCustomer
        (.ok { statusCode := 201, status := "201 Created",
               location := "https://api-sandbox.example.com/customers/xyz-789" }) := by
  refine ⟨?_, ?_, rfl⟩ <;> decide

/-- C9: the third header CreateIAVFundingSourceToken and ListFundingSources
attach is named Conetent-Type, so no header named exactly Content-Type is
present on those requests, while Authorization and Accept are attached as
documented. -/
theorem content_type_header_misspelt_eval :
    (createIAVFundingSourceTokenRequest sampleCustomer "tok").headers
      = [("Authorization", "Bearer tok"), ("Accept", halMediaType),
         ("Conetent-Type", halMediaType)]
    ∧ ((createIAVFundingSourceTokenRequest sampleCustomer "tok").headers.find?
        (fun p => p.1 == "Content-Type") = none)
    ∧ (listFundingSourcesRequest sampleCustomer "tok").headers
      = [("Authorization", "Bearer tok"), ("Accept", halMediaType),
         ("Conetent-Type", halMediaType)]
    ∧ ((listFundingSourcesRequest sampleCustomer "tok").headers.find?
        (fun p => p.1 == "Content-Type") = none) := by
  refine ⟨?_, ?_, ?_, ?_⟩ <;> decide

end DwollaGo
